import Mathlib

/-!
Verification of the rfp-mvp repository: a shallow embedding of its
data model, API route handlers, and client-side workflow orchestrator,
with theorems settling the specification claims.

Sources embedded:
- src/app/page.tsx                (workflow orchestrator, localStorage persistence)
- src/app/api/process-rfp/route.ts (Extraction stage)
- the bid-assessment route        (Assessment stage)
- src/app/api/analyze-all/route.ts (Comparative Analysis stage)

External collaborators (the ai model endpoint, the Vercel blob store,
the browser JSON parser) are modelled as oracle parameters, following
the spec, which treats them as opaque functions.
-/

/-! ## Data model (the TypeScript interfaces of page.tsx) -/

/-- Requirement, from the RFPData interface of page.tsx:
a record with fields text and category, both strings. -/
structure Requirement where
  text : String
  category : String
deriving DecidableEq, Repr

/-- RFPData interface of page.tsx: title, rawText, requirements. -/
structure RFPData where
  title : String
  rawText : String
  requirements : List Requirement
deriving DecidableEq, Repr

/-- One element of BidData.requirements in page.tsx:
text, category, isSatisfied, reason. -/
structure AssessedRequirement where
  text : String
  category : String
  isSatisfied : Bool
  reason : String
deriving DecidableEq, Repr

/-- BidData interface of page.tsx: title, rawText, totalCost, timeline,
requirements.  JS numbers are modelled as rationals. -/
structure BidData where
  title : String
  rawText : String
  totalCost : Rat
  timeline : String
  requirements : List AssessedRequirement
deriving DecidableEq, Repr

/-- One element of AnalysisData.openQuestions in page.tsx. -/
structure OpenQuestionEntry where
  companyName : String
  openQuestions : List String
deriving DecidableEq, Repr

/-- AnalysisData interface of page.tsx: recommendation,
mainRecommendationReason, supportingRecommendationPoints, openQuestions. -/
structure AnalysisData where
  recommendation : String
  mainRecommendationReason : String
  supportingRecommendationPoints : List String
  openQuestions : List OpenQuestionEntry
deriving DecidableEq, Repr

/-! ## Untyped JS values

Used to state schema conformance of raw model responses and the
untyped localStorage restore.  Objects are association lists; property
lookup takes the first binding of a key. -/

/-- An untyped JavaScript value. -/
inductive JsValue where
  | null
  | undefined
  | bool (b : Bool)
  | num (q : Rat)
  | str (s : String)
  | arr (elems : List JsValue)
  | obj (fields : List (String × JsValue))

/-- Property lookup on an object field list; a missing key reads as
undefined, as in JavaScript. -/
def jsGetObj (fields : List (String × JsValue)) (k : String) : JsValue :=
  match fields.find? (fun p => p.1 == k) with
  | some p => p.2
  | none => .undefined

/-- JavaScript truthiness of a value (NaN does not arise here: these
values come from JSON, which has no NaN literal). -/
def truthy : JsValue → Bool
  | .null => false
  | .undefined => false
  | .bool b => b
  | .num q => q != 0
  | .str s => s != ""
  | .arr _ => true
  | .obj _ => true

/-- Property access as an expression: on null or undefined it throws
(error); on every other value it yields the property or undefined. -/
def jsGet : JsValue → String → Except Unit JsValue
  | .null, _ => .error ()
  | .undefined, _ => .error ()
  | .obj fields, k => .ok (jsGetObj fields k)
  | _, _ => .ok .undefined

/-- Whether an object value carries the given key. -/
def hasKey : JsValue → String → Bool
  | .obj fields, k => fields.any (fun p => p.1 == k)
  | _, _ => false

/-- The value is a JS string. -/
def isStr : JsValue → Bool
  | .str _ => true
  | _ => false

/-- The value is a JS number. -/
def isNum : JsValue → Bool
  | .num _ => true
  | _ => false

/-- The value is a JS boolean. -/
def isBool : JsValue → Bool
  | .bool _ => true
  | _ => false

/-- The value is an array whose elements are all strings
(the zod check for an array of z.string()). -/
def isStringArray : JsValue → Bool
  | .arr elems => elems.all isStr
  | _ => false

/-! ## zod schemas of the three routes

Each z.object requires every listed key to be present with the right
type; extra keys are ignored (zod strips them). -/

/-- Element check of rfpSchema.requirements in process-rfp/route.ts:
z.object with text and category strings. -/
def rfpRequirementCheck : JsValue → Bool
  | .obj fields =>
      isStr (jsGetObj fields "text") && isStr (jsGetObj fields "category")
  | _ => false

/-- rfpSchema of process-rfp/route.ts: title, rawText, requirements. -/
def rfpSchemaCheck : JsValue → Bool
  | .obj fields =>
      isStr (jsGetObj fields "title")
      && isStr (jsGetObj fields "rawText")
      && (match jsGetObj fields "requirements" with
          | .arr elems => elems.all rfpRequirementCheck
          | _ => false)
  | _ => false

/-- Element check of bidSchema.requirements in the bid-assessment
route: text, category, isSatisfied, reason. -/
def bidRequirementCheck : JsValue → Bool
  | .obj fields =>
      isStr (jsGetObj fields "text")
      && isStr (jsGetObj fields "category")
      && isBool (jsGetObj fields "isSatisfied")
      && isStr (jsGetObj fields "reason")
  | _ => false

/-- bidSchema of the bid-assessment route: title, rawText, totalCost,
timeline, requirements. -/
def bidSchemaCheck : JsValue → Bool
  | .obj fields =>
      isStr (jsGetObj fields "title")
      && isStr (jsGetObj fields "rawText")
      && isNum (jsGetObj fields "totalCost")
      && isStr (jsGetObj fields "timeline")
      && (match jsGetObj fields "requirements" with
          | .arr elems => elems.all bidRequirementCheck
          | _ => false)
  | _ => false

/-- Element check of analysisSchema.openQuestions in
analyze-all/route.ts: companyName string, openQuestions string array. -/
def analysisOpenQuestionCheck : JsValue → Bool
  | .obj fields =>
      isStr (jsGetObj fields "companyName")
      && isStringArray (jsGetObj fields "openQuestions")
  | _ => false

/-- analysisSchema of analyze-all/route.ts.  Note the field names of
the source: recommendation, recommendationReason, openQuestions. -/
def analysisSchemaCheck : JsValue → Bool
  | .obj fields =>
      isStr (jsGetObj fields "recommendation")
      && isStr (jsGetObj fields "recommendationReason")
      && (match jsGetObj fields "openQuestions" with
          | .arr elems => elems.all analysisOpenQuestionCheck
          | _ => false)
  | _ => false

/-- The Analysis output shape asserted by the spec and by the client
AnalysisData interface: recommendation, mainRecommendationReason,
supportingRecommendationPoints as a string array, openQuestions. -/
def claimedAnalysisShape : JsValue → Bool
  | .obj fields =>
      isStr (jsGetObj fields "recommendation")
      && isStr (jsGetObj fields "mainRecommendationReason")
      && isStringArray (jsGetObj fields "supportingRecommendationPoints")
      && (match jsGetObj fields "openQuestions" with
          | .arr elems => elems.all analysisOpenQuestionCheck
          | _ => false)
  | _ => false

/-- The Bid output shape asserted by the spec: title, rawText,
totalCost, timeline, requirements with per-item text, category,
isSatisfied, reason. -/
def claimedBidShape : JsValue → Bool
  | .obj fields =>
      isStr (jsGetObj fields "title")
      && isStr (jsGetObj fields "rawText")
      && isNum (jsGetObj fields "totalCost")
      && isStr (jsGetObj fields "timeline")
      && (match jsGetObj fields "requirements" with
          | .arr elems => elems.all bidRequirementCheck
          | _ => false)
  | _ => false

/-! ## JS floating-point corner values

Only what the satisfaction-percentage expression of
analyze-all/route.ts needs: division producing NaN or Infinity, a
multiplication by 100, and Math.round. -/

/-- A JS number restricted to the values the percentage computation
can take: a finite rational, NaN, or a signed infinity. -/
inductive JsNum where
  | finite (q : Rat)
  | nan
  | inf
  | negInf
deriving DecidableEq, Repr

/-- Division of two natural counts as JS evaluates satisfied / total:
0 / 0 is NaN, positive / 0 is Infinity. -/
def jsDiv (s t : Nat) : JsNum :=
  if t = 0 then (if s = 0 then .nan else .inf)
  else .finite ((s : Rat) / (t : Rat))

/-- Multiplication by the positive literal 100. -/
def jsMul100 : JsNum → JsNum
  | .finite q => .finite (q * 100)
  | .nan => .nan
  | .inf => .inf
  | .negInf => .negInf

/-- Math.round: round half toward positive infinity; NaN and the
infinities pass through. -/
def jsRound : JsNum → JsNum
  | .finite q => .finite ((⌊q + 1 / 2⌋ : Int) : Rat)
  | .nan => .nan
  | .inf => .inf
  | .negInf => .negInf

/-- satisfied of analyze-all/route.ts bidsSummary:
bid.requirements.filter(isSatisfied).length. -/
def satisfiedCount (bid : BidData) : Nat :=
  (bid.requirements.filter (fun r => r.isSatisfied)).length

/-- total of analyze-all/route.ts bidsSummary: bid.requirements.length. -/
def totalCount (bid : BidData) : Nat :=
  bid.requirements.length

/-- The percentage interpolated into the Requirements Satisfied line
of bidsSummary in analyze-all/route.ts:
Math.round((satisfied / total) * 100), with no guard on total. -/
def satisfactionPercent (bid : BidData) : JsNum :=
  jsRound (jsMul100 (jsDiv (satisfiedCount bid) (totalCount bid)))

/-! ## HTTP responses and blob-service effects -/

/-- A NextResponse.json reply: a status code and a JSON body. -/
structure HttpResponse where
  status : Nat
  body : JsValue

/-- NextResponse.json with an output field and status 200. -/
def jsonOk (output : JsValue) : HttpResponse :=
  { status := 200, body := .obj [("output", output)] }

/-- NextResponse.json with an error field and an explicit status. -/
def errorResponse (status : Nat) (msg : String) : HttpResponse :=
  { status := status, body := .obj [("error", .str msg)] }

/-- A call made to the Vercel blob service: put with a blob name, or
del with a blob URL. -/
inductive BlobEvent where
  | putCall (name : String)
  | delCall (url : String)
deriving DecidableEq, Repr

/-- Modelled from the spec: the external ai library call generateText
with Output.object validates the model response against the declared
schema and throws when the response does not conform; the model
endpoint itself is an opaque oracle, so its raw structured response
(or its failure) is a parameter.  The prompt does not influence this
boundary and is carried only for fidelity to the call sites. -/
def generateStructured (check : JsValue → Bool) (_prompt : String)
    (modelOutcome : Except Unit JsValue) : Except Unit JsValue :=
  match modelOutcome with
  | .error _ => .error ()
  | .ok v => if check v then .ok v else .error ()

/-- The try/finally discipline of both file routes: if the blobUrl
variable holds a truthy URL, del is called on it; a failure of del is
caught inside the finally block and only logged, so no exception
escapes and the response computed by the try/catch is returned as is.
The first component of the cleanup is the del call trace, the second
is the exception escaping the finally block, none by construction of
the inner catch. -/
def cleanupAttempt (url : String) (delOutcome : Except Unit Unit) :
    List BlobEvent × Option Unit :=
  match delOutcome with
  | .ok _ => ([.delCall url], none)
  | .error _ => ([.delCall url], none)

/-- Runs the finally block around an already-computed response and
event trace.  blobUrl mirrors the let-bound variable of the source:
none before put succeeded, the returned URL after; the if (!blobUrl)
test treats the empty string as falsy. -/
def applyFinally (resp : HttpResponse) (events : List BlobEvent)
    (blobUrl : Option String) (delOutcome : Except Unit Unit) :
    HttpResponse × List BlobEvent :=
  match blobUrl with
  | none => (resp, events)
  | some url =>
      if url = "" then (resp, events)
      else
        let c := cleanupAttempt url delOutcome
        match c.2 with
        | some _ => (errorResponse 500 "unreachable", events ++ c.1)
        | none => (resp, events ++ c.1)

/-! ## Extraction stage: process-rfp/route.ts POST handler -/

/-- The file field of a multipart request. -/
structure UploadedFile where
  name : String
  type : String
  size : Nat
deriving DecidableEq, Repr

/-- The parsed FormData of a process-rfp request. -/
structure RfpRequest where
  file : Option UploadedFile
deriving DecidableEq, Repr

/-- The 10 MiB size bound shared by both file routes. -/
def maxSize : Nat := 10 * 1024 * 1024

/-- POST of process-rfp/route.ts.  Oracle parameters: putOutcome is
the blob put result (URL or throw), modelOutcome the raw model
response, delOutcome the blob del result, now the Date.now timestamp.
Returns the response and the trace of blob-service calls. -/
def processRfpPOST (req : RfpRequest) (putOutcome : Except Unit String)
    (modelOutcome : Except Unit JsValue) (delOutcome : Except Unit Unit)
    (now : Nat) : HttpResponse × List BlobEvent :=
  match req.file with
  | none => applyFinally (errorResponse 400 "No file provided") [] none delOutcome
  | some file =>
      if file.type ≠ "application/pdf" then
        applyFinally (errorResponse 400 "File must be a PDF") [] none delOutcome
      else if maxSize < file.size then
        applyFinally (errorResponse 400 "File size must be less than 10MB") [] none delOutcome
      else
        let fileName := "rfp-" ++ toString now ++ "-" ++ file.name
        match putOutcome with
        | .error _ =>
            applyFinally (errorResponse 500 "Failed to process RFP document")
              [.putCall fileName] none delOutcome
        | .ok url =>
            if url = "" then
              applyFinally (errorResponse 500 "Failed to upload file to blob storage")
                [.putCall fileName] (some url) delOutcome
            else
              match generateStructured rfpSchemaCheck "extract the RFP" modelOutcome with
              | .ok output =>
                  applyFinally (jsonOk output) [.putCall fileName] (some url) delOutcome
              | .error _ =>
                  applyFinally (errorResponse 500 "Failed to process RFP document")
                    [.putCall fileName] (some url) delOutcome

/-! ## Assessment stage: the bid-assessment route POST handler -/

/-- The parsed FormData of a bid-assessment request: the file field
and the requirements field, a JSON string. -/
structure BidRequest where
  file : Option UploadedFile
  requirementsJson : Option String
deriving DecidableEq, Repr

/-- requirementsText of the bid-assessment route: the requirement list
rendered one entry per element, 1-based index, bracketed category. -/
def requirementLines (reqs : List Requirement) : List String :=
  reqs.enum.map (fun p => toString (p.1 + 1) ++ ". [" ++ p.2.category ++ "] " ++ p.2.text)

/-- requirements.map(...).join of the bid-assessment route. -/
def requirementsText (reqs : List Requirement) : String :=
  String.intercalate "\n" (requirementLines reqs)

/-- rfpRequirementsText of analyze-all/route.ts: the same rendering
applied to rfp.requirements. -/
def rfpRequirementsText (reqs : List Requirement) : String :=
  String.intercalate "\n" (requirementLines reqs)

/-- POST of the bid-assessment route.  parseOutcome is the JSON.parse
result for the requirements field (the source casts it to the
requirement-array type without further checks). -/
def processBidPOST (req : BidRequest)
    (parseOutcome : Except Unit (List Requirement))
    (putOutcome : Except Unit String) (modelOutcome : Except Unit JsValue)
    (delOutcome : Except Unit Unit) (now : Nat) :
    HttpResponse × List BlobEvent :=
  match req.file with
  | none => applyFinally (errorResponse 400 "No file provided") [] none delOutcome
  | some file =>
      match req.requirementsJson with
      | none => applyFinally (errorResponse 400 "No requirements provided") [] none delOutcome
      | some _ =>
          match parseOutcome with
          | .error _ =>
              applyFinally (errorResponse 400 "Invalid requirements JSON") [] none delOutcome
          | .ok reqs =>
              if file.type ≠ "application/pdf" then
                applyFinally (errorResponse 400 "File must be a PDF") [] none delOutcome
              else if maxSize < file.size then
                applyFinally (errorResponse 400 "File size must be less than 10MB") [] none delOutcome
              else
                let fileName := "bid-" ++ toString now ++ "-" ++ file.name
                match putOutcome with
                | .error _ =>
                    applyFinally (errorResponse 500 "Failed to process bid document")
                      [.putCall fileName] none delOutcome
                | .ok url =>
                    if url = "" then
                      applyFinally (errorResponse 500 "Failed to upload file to blob storage")
                        [.putCall fileName] (some url) delOutcome
                    else
                      match generateStructured bidSchemaCheck (requirementsText reqs) modelOutcome with
                      | .ok output =>
                          applyFinally (jsonOk output) [.putCall fileName] (some url) delOutcome
                      | .error _ =>
                          applyFinally (errorResponse 500 "Failed to process bid document")
                            [.putCall fileName] (some url) delOutcome

/-! ## Comparative Analysis stage: analyze-all/route.ts POST handler -/

/-- The parsed JSON body of an analyze-all request; none models an
absent or falsy rfp and an absent or non-array bids field. -/
structure AnalyzeRequest where
  rfp : Option RFPData
  bids : Option (List BidData)

/-- POST of analyze-all/route.ts: validate rfp and bids, build the
prompt from rfpRequirementsText and the bid summaries, then call the
model with analysisSchemaCheck.  No file or blob traffic occurs. -/
def analyzeAllPOST (req : AnalyzeRequest)
    (modelOutcome : Except Unit JsValue) : HttpResponse :=
  match req.rfp with
  | none => errorResponse 400 "RFP data is required"
  | some rfp =>
      match req.bids with
      | none => errorResponse 400 "At least one bid is required"
      | some bids =>
          if bids.isEmpty then errorResponse 400 "At least one bid is required"
          else
            match generateStructured analysisSchemaCheck
                (rfpRequirementsText rfp.requirements) modelOutcome with
            | .ok output => jsonOk output
            | .error _ => errorResponse 500 "Failed to analyze bids"

/-! ## Workflow orchestrator: the Home component of page.tsx

The project state is the triple of React states rfpData, bids,
analysisData, together with the localStorage entry under the key
rfp-bid-project.  The stored entry, when written by this application,
is the JSON.stringify of the full triple. -/

/-- The serialized triple written to localStorage by the save effect. -/
structure StoredProject where
  rfpData : Option RFPData
  bids : List BidData
  analysisData : Option AnalysisData
deriving DecidableEq, Repr

/-- The orchestrator state: the three project React states plus the
localStorage entry (none when the key is absent). -/
structure OrchState where
  rfpData : Option RFPData
  bids : List BidData
  analysisData : Option AnalysisData
  store : Option StoredProject
deriving DecidableEq, Repr

/-- The save useEffect of page.tsx: whenever rfpData, bids or
analysisData is truthy or non-empty, the full triple is written to
localStorage; otherwise nothing is written. -/
def saveEffect (s : OrchState) : OrchState :=
  if s.rfpData.isSome || !s.bids.isEmpty || s.analysisData.isSome then
    { s with store := some ⟨s.rfpData, s.bids, s.analysisData⟩ }
  else s

/-- handleRfpUpload of page.tsx: on fetch success the output becomes
rfpData (then the save effect runs); on failure only the error banner
is set and the project state is untouched. -/
def loadRFP (s : OrchState) (outcome : Except Unit RFPData) : OrchState :=
  match outcome with
  | .ok r => saveEffect { s with rfpData := some r }
  | .error _ => s

/-- handleBidUpload of page.tsx: guarded by if (!bidFile || !rfpData)
return, so nothing happens without a current RFP; on success the bid
is appended to bids (then the save effect runs); on failure the
project state is untouched. -/
def addBid (s : OrchState) (outcome : Except Unit BidData) : OrchState :=
  match s.rfpData with
  | none => s
  | some _ =>
      match outcome with
      | .ok b => saveEffect { s with bids := s.bids ++ [b] }
      | .error _ => s

/-- handleAnalyzeAll of page.tsx: guarded by
if (!rfpData || bids.length === 0), which only sets the error banner;
on success the output replaces analysisData wholesale (then the save
effect runs); on failure the project state, including any stale
analysis, is untouched. -/
def runAnalysis (s : OrchState) (outcome : Except Unit AnalysisData) : OrchState :=
  if s.rfpData.isNone || s.bids.isEmpty then s
  else
    match outcome with
    | .ok a => saveEffect { s with analysisData := some a }
    | .error _ => s

/-- handleStartNewProject of page.tsx: clears rfpData, bids and
analysisData and removes the localStorage key.  The save effect then
sees an all-empty state and writes nothing. -/
def resetProject (_s : OrchState) : OrchState :=
  { rfpData := none, bids := [], analysisData := none, store := none }

/-- A fresh page load: the React states start empty while the
localStorage entry persists. -/
def newSession (s : OrchState) : OrchState :=
  { rfpData := none, bids := [], analysisData := none, store := s.store }

/-- The mount load useEffect of page.tsx applied to a store written by
this application: each field of the parsed triple is restored when
truthy.  A stored bids array is always truthy (JS arrays are truthy
even when empty), a stored null rfpData or analysisData is falsy.
The save effect then runs on the restored state. -/
def restoreFromStore (s : OrchState) : OrchState :=
  match s.store with
  | none => s
  | some st =>
      saveEffect
        { s with
          rfpData := if st.rfpData.isSome then st.rfpData else s.rfpData,
          bids := st.bids,
          analysisData :=
            if st.analysisData.isSome then st.analysisData else s.analysisData }

/-- States of the orchestrator reachable from the initial empty state
by the user-driven transitions, page reloads, and restores from the
durable store. -/
inductive Reachable : OrchState → Prop where
  | init : Reachable ⟨none, [], none, none⟩
  | load {s o} : Reachable s → Reachable (loadRFP s o)
  | bid {s o} : Reachable s → Reachable (addBid s o)
  | analyze {s o} : Reachable s → Reachable (runAnalysis s o)
  | reset {s} : Reachable s → Reachable (resetProject s)
  | page {s} : Reachable s → Reachable (newSession s)
  | restore {s} : Reachable s → Reachable (restoreFromStore s)

/-- The Project invariant of the spec, on a field triple. -/
def projInv (r : Option RFPData) (b : List BidData) (a : Option AnalysisData) : Prop :=
  (b ≠ [] → r.isSome = true) ∧ (a.isSome = true → b ≠ [])

/-- The induction invariant: the in-memory triple satisfies the
Project invariant, any stored triple satisfies it as well, and a
present in-memory analysis forces a present stored analysis. -/
def invAll (s : OrchState) : Prop :=
  projInv s.rfpData s.bids s.analysisData ∧
  ∀ st, s.store = some st →
    projInv st.rfpData st.bids st.analysisData ∧
    (s.analysisData.isSome = true → st.analysisData.isSome = true)

/-- The save effect preserves the induction invariant, needing only
the Project invariant of the in-memory triple and the invariant of a
previously stored triple: when it skips the write, the in-memory
analysis is absent, so the compatibility clause is vacuous. -/
theorem invAll_saveEffect (s : OrchState)
    (hproj : projInv s.rfpData s.bids s.analysisData)
    (hstore : ∀ st, s.store = some st → projInv st.rfpData st.bids st.analysisData) :
    invAll (saveEffect s) := by
  unfold saveEffect
  split
  · next hcond =>
      refine ⟨hproj, ?_⟩
      intro st hst
      simp only [Option.some.injEq] at hst
      subst hst
      exact ⟨hproj, fun h => h⟩
  · next hcond =>
      simp only [Bool.or_eq_true, not_or, Bool.not_eq_true] at hcond
      refine ⟨hproj, ?_⟩
      intro st hst
      refine ⟨hstore st hst, ?_⟩
      intro hA
      rw [hcond.2] at hA
      cases hA

/-- Every reachable orchestrator state satisfies the induction
invariant. -/
theorem reachable_invAll (s : OrchState) (h : Reachable s) : invAll s := by
  induction h with
  | init =>
      exact ⟨⟨fun h => absurd rfl h, fun h => by cases h⟩, fun st hst => by cases hst⟩
  | @load s o hr ih =>
      cases o with
      | error _ => exact ih
      | ok r =>
          apply invAll_saveEffect
          · exact ⟨fun _ => rfl, ih.1.2⟩
          · intro st hst
            have hst2 : s.store = some st := hst
            exact (ih.2 st hst2).1
  | @bid s o hr ih =>
      unfold addBid
      cases hx : s.rfpData with
      | none => exact ih
      | some x =>
          cases o with
          | error _ => exact ih
          | ok b =>
              apply invAll_saveEffect
              · refine ⟨fun _ => rfl, fun _ => ?_⟩
                simp
              · intro st hst
                have hst2 : s.store = some st := hst
                exact (ih.2 st hst2).1
  | @analyze s o hr ih =>
      unfold runAnalysis
      split
      · exact ih
      · next hguard =>
          simp only [Bool.or_eq_true, not_or, Bool.not_eq_true] at hguard
          cases o with
          | error _ => exact ih
          | ok a =>
              apply invAll_saveEffect
              · constructor
                · intro _
                  show s.rfpData.isSome = true
                  cases hx : s.rfpData with
                  | none => rw [hx] at hguard; simp at hguard
                  | some _ => rfl
                · intro _
                  show s.bids ≠ []
                  intro hnil
                  rw [hnil] at hguard
                  simp at hguard
              · intro st hst
                have hst2 : s.store = some st := hst
                exact (ih.2 st hst2).1
  | @reset s hr ih =>
      exact ⟨⟨fun h => absurd rfl h, fun h => by cases h⟩, fun st hst => by cases hst⟩
  | @page s hr ih =>
      refine ⟨⟨fun h => absurd rfl h, fun h => by cases h⟩, ?_⟩
      intro st hst
      have hst2 : s.store = some st := hst
      refine ⟨(ih.2 st hst2).1, ?_⟩
      intro hA
      cases hA
  | @restore s hr ih =>
      unfold restoreFromStore
      cases hs : s.store with
      | none => exact ih
      | some st =>
          have hstInv := (ih.2 st hs).1
          have hcompat := (ih.2 st hs).2
          apply invAll_saveEffect
          · constructor
            · intro hnil
              have hnil2 : st.bids ≠ [] := hnil
              show (if st.rfpData.isSome = true then st.rfpData else s.rfpData).isSome = true
              cases hA : st.rfpData with
              | some v => simp
              | none =>
                  have h1 := hstInv.1 hnil2
                  rw [hA] at h1
                  simp at h1
            · cases hA : st.analysisData with
              | some v =>
                  intro _
                  show st.bids ≠ []
                  exact hstInv.2 (by rw [hA]; rfl)
              | none =>
                  intro hA2
                  have hA3 : s.analysisData.isSome = true := hA2
                  have h3 := hcompat hA3
                  rw [hA] at h3
                  simp at h3
          · intro st2 hst2
            have h5 : some st = some st2 := hst2
            injection h5 with h6
            rw [← h6]
            exact hstInv

/-! ## Startup restore over raw stored content

The mount load effect of page.tsx, read against arbitrary
localStorage content: getItem yields null or a string, an empty
string is falsy and skips the parse, JSON.parse is the external
parser (an oracle), and every throw inside the try block, from the
parse or from a property access on a null parse result, is caught and
logged.  Each truthy field is restored by its React setter; the
setters run in source order, so a throw leaves the fields already set. -/

/-- The three raw slots as restored at mount: none when the
corresponding setter did not run, some v when it ran with v. -/
structure RawRestored where
  rfpData : Option JsValue
  bids : Option JsValue
  analysisData : Option JsValue

/-- The mount load effect.  stored is the getItem result; parsed is
the JSON.parse oracle outcome for the stored string. -/
def loadStoredData (stored : Option String)
    (parsed : Except Unit JsValue) : RawRestored :=
  match stored with
  | none => ⟨none, none, none⟩
  | some s =>
      if s = "" then ⟨none, none, none⟩
      else
        match parsed with
        | .error _ => ⟨none, none, none⟩
        | .ok data =>
            match jsGet data "rfpData" with
            | .error _ => ⟨none, none, none⟩
            | .ok v1 =>
                let slot1 := if truthy v1 then some v1 else none
                match jsGet data "bids" with
                | .error _ => ⟨slot1, none, none⟩
                | .ok v2 =>
                    let slot2 := if truthy v2 then some v2 else none
                    match jsGet data "analysisData" with
                    | .error _ => ⟨slot1, slot2, none⟩
                    | .ok v3 =>
                        ⟨slot1, slot2, if truthy v3 then some v3 else none⟩

/-! ## Concrete demonstration values -/

/-- A sample extracted requirement. -/
def demoReq1 : Requirement := ⟨"Must use licensed contractor", "Compliance"⟩

/-- A second sample extracted requirement. -/
def demoReq2 : Requirement := ⟨"Budget under 500k", "Financial"⟩

/-- A sample extracted RFP. -/
def demoRfp : RFPData := ⟨"Acme Office Renovation", "raw text", [demoReq1, demoReq2]⟩

/-- A sample satisfied assessed requirement. -/
def demoAssessed1 : AssessedRequirement :=
  ⟨"Must use licensed contractor", "Compliance", true, "Holds a state license"⟩

/-- A sample unsatisfied assessed requirement. -/
def demoAssessed2 : AssessedRequirement :=
  ⟨"Budget under 500k", "Financial", false, "Bid totals 520k"⟩

/-- A sample assessed bid. -/
def demoBid : BidData :=
  ⟨"BuildCo Proposal", "raw bid text", 420000, "4 months",
   [demoAssessed1, demoAssessed2]⟩

/-- A bid whose requirements sequence is empty. -/
def emptyReqBid : BidData := ⟨"NoReq Proposal", "raw", 1000, "1 month", []⟩

/-- The orchestrator state after loading the sample RFP and adding
the sample bid, starting from the initial empty state. -/
def demoState : OrchState :=
  addBid (loadRFP ⟨none, [], none, none⟩ (.ok demoRfp)) (.ok demoBid)

/-- A valid 2 MiB PDF upload. -/
def demoPdf : UploadedFile := ⟨"bid.pdf", "application/pdf", 2097152⟩

/-- A non-PDF upload. -/
def demoTxt : UploadedFile := ⟨"notes.txt", "text/plain", 2048⟩

/-- A schema-conformant Assessment model response. -/
def demoBidJson : JsValue :=
  .obj [("title", .str "BuildCo Proposal"),
        ("rawText", .str "raw bid text"),
        ("totalCost", .num 420000),
        ("timeline", .str "4 months"),
        ("requirements", .arr
          [.obj [("text", .str "Must use licensed contractor"),
                 ("category", .str "Compliance"),
                 ("isSatisfied", .bool true),
                 ("reason", .str "Holds a state license")]])]

/-- A model response that conforms to the analysisSchema of
analyze-all/route.ts but not to the shape asserted by the spec and
by the client AnalysisData interface. -/
def c2ModelResponse : JsValue :=
  .obj [("recommendation", .str "Bid 1: BuildCo Proposal"),
        ("recommendationReason", .str "Lowest cost and most requirements satisfied"),
        ("openQuestions", .arr
          [.obj [("companyName", .str "BuildCo"),
                 ("openQuestions", .arr [.str "Confirm the license number"])]])]

/-- A stored value holding only the rfpData field. -/
def c10StoredValue : JsValue :=
  .obj [("rfpData", .obj [("title", .str "Acme Office Renovation")])]

/-! ## Reduction helpers for the file routes -/

/-- The finally block around a staged URL: it always issues the del
call and never alters the response, because the inner catch swallows
the del failure. -/
theorem applyFinally_fst (resp : HttpResponse) (events : List BlobEvent)
    (url : String) (d : Except Unit Unit) (hu : url ≠ "") :
    applyFinally resp events (some url) d = (resp, events ++ [.delCall url]) := by
  cases d <;> simp [applyFinally, cleanupAttempt, if_neg hu]

/-- Reduction of the Extraction handler once validation passed and
staging succeeded: the model outcome decides the response, and the
trace is the put followed by the del of the staged URL. -/
theorem processRfp_staged (f : UploadedFile) (url : String)
    (mo : Except Unit JsValue) (d : Except Unit Unit) (now : Nat)
    (h1 : f.type = "application/pdf") (h2 : f.size ≤ maxSize) (hu : url ≠ "") :
    processRfpPOST ⟨some f⟩ (.ok url) mo d now =
      ((match generateStructured rfpSchemaCheck "extract the RFP" mo with
        | .ok output => jsonOk output
        | .error _ => errorResponse 500 "Failed to process RFP document"),
       [.putCall ("rfp-" ++ toString now ++ "-" ++ f.name), .delCall url]) := by
  have hn : ¬ (f.type ≠ "application/pdf") := fun hc => hc h1
  have hsz : ¬ (maxSize < f.size) := not_lt.mpr h2
  cases mo with
  | error e =>
      simp [processRfpPOST, if_neg hn, if_neg hsz, if_neg hu, generateStructured,
        applyFinally_fst _ _ _ _ hu]
  | ok v =>
      cases hcv : rfpSchemaCheck v with
      | true =>
          simp [processRfpPOST, if_neg hn, if_neg hsz, if_neg hu, generateStructured,
            hcv, applyFinally_fst _ _ _ _ hu]
      | false =>
          simp [processRfpPOST, if_neg hn, if_neg hsz, if_neg hu, generateStructured,
            hcv, applyFinally_fst _ _ _ _ hu]

/-- Reduction of the Assessment handler once validation passed and
staging succeeded. -/
theorem processBid_staged (f : UploadedFile) (rjson : String)
    (reqs : List Requirement) (url : String) (mo : Except Unit JsValue)
    (d : Except Unit Unit) (now : Nat)
    (h1 : f.type = "application/pdf") (h2 : f.size ≤ maxSize) (hu : url ≠ "") :
    processBidPOST ⟨some f, some rjson⟩ (.ok reqs) (.ok url) mo d now =
      ((match generateStructured bidSchemaCheck (requirementsText reqs) mo with
        | .ok output => jsonOk output
        | .error _ => errorResponse 500 "Failed to process bid document"),
       [.putCall ("bid-" ++ toString now ++ "-" ++ f.name), .delCall url]) := by
  have hn : ¬ (f.type ≠ "application/pdf") := fun hc => hc h1
  have hsz : ¬ (maxSize < f.size) := not_lt.mpr h2
  cases mo with
  | error e =>
      simp [processBidPOST, if_neg hn, if_neg hsz, if_neg hu, generateStructured,
        applyFinally_fst _ _ _ _ hu]
  | ok v =>
      cases hcv : bidSchemaCheck v with
      | true =>
          simp [processBidPOST, if_neg hn, if_neg hsz, if_neg hu, generateStructured,
            hcv, applyFinally_fst _ _ _ _ hu]
      | false =>
          simp [processBidPOST, if_neg hn, if_neg hsz, if_neg hu, generateStructured,
            hcv, applyFinally_fst _ _ _ _ hu]

/-- A key the object does not carry reads as undefined. -/
theorem jsGetObj_of_hasKey_false (fields : List (String × JsValue)) (k : String)
    (h : hasKey (.obj fields) k = false) : jsGetObj fields k = .undefined := by
  unfold jsGetObj
  have hfind : fields.find? (fun p => p.1 == k) = none := by
    rw [List.find?_eq_none]
    intro x hx
    simp only [hasKey, List.any_eq_false] at h
    exact fun hpx => h x hx hpx
  rw [hfind]

/-! ## Claim theorems -/

/-- Claim C1: for every reachable Project state of the orchestrator,
reached from the empty state by loadRFP, addBid, runAnalysis, reset,
page reloads and restores from the durable store, the bids sequence
is non-empty only if the RFP is present, and the analysis is present
only if the bids sequence is non-empty. -/
theorem orchestrator_project_invariant (s : OrchState) (h : Reachable s) :
    (s.bids ≠ [] → s.rfpData.isSome = true) ∧
    (s.analysisData.isSome = true → s.bids ≠ []) :=
  (reachable_invAll s h).1

/-- Witness for C1 at the concrete reachable state demoState. -/
theorem orchestrator_project_invariant_witness :
    (demoState.bids ≠ [] → demoState.rfpData.isSome = true) ∧
    (demoState.analysisData.isSome = true → demoState.bids ≠ []) :=
  orchestrator_project_invariant demoState
    (Reachable.bid (Reachable.load Reachable.init))

/-- Claim C7: a failing stage invocation leaves the accumulated
Project state untouched: an Extraction failure, an Assessment failure
(no partial bid is appended) and an Analysis failure (RFP, bids and
any stale analysis kept) each return the orchestrator state
unchanged. -/
theorem stage_failure_preserves_state (s : OrchState) :
    loadRFP s (.error ()) = s ∧ addBid s (.error ()) = s ∧
    runAnalysis s (.error ()) = s := by
  refine ⟨rfl, ?_, ?_⟩
  · unfold addBid
    cases s.rfpData <;> rfl
  · unfold runAnalysis
    split <;> rfl

/-- Claim C9: reset unconditionally clears the RFP, the bids and the
analysis, returns the orchestrator to the empty state, removes the
durable store entry, and a subsequent RFP submission starts a wholly
new project with an empty bids collection. -/
theorem reset_starts_fresh (s : OrchState) (r : RFPData) :
    resetProject s = ⟨none, [], none, none⟩ ∧
    loadRFP (resetProject s) (.ok r) = ⟨some r, [], none, some ⟨some r, [], none⟩⟩ := by
  exact ⟨rfl, by simp [resetProject, loadRFP, saveEffect]⟩

/-- Claim C2 (refuted, a bug in the code): the model response
c2ModelResponse conforms to the analysisSchema of
analyze-all/route.ts, so the Comparative Analysis stage succeeds and
returns it with status 200, yet the record does not conform to the
shape the spec and the client AnalysisData interface assert, because
the route schema names the reason field recommendationReason and has
no supportingRecommendationPoints field. -/
theorem analysis_schema_mismatch :
    analysisSchemaCheck c2ModelResponse = true ∧
    claimedAnalysisShape c2ModelResponse = false ∧
    analyzeAllPOST ⟨some demoRfp, some [demoBid]⟩ (.ok c2ModelResponse)
      = jsonOk c2ModelResponse :=
  ⟨rfl, rfl, rfl⟩

/-- Claim C4 counterexample: for a bid with an empty requirements
sequence the rendered ratio is NaN, not the claimed 0 percent: the
division in analyze-all/route.ts is not guarded. -/
theorem satisfaction_percent_unguarded :
    satisfactionPercent emptyReqBid = JsNum.nan ∧
    JsNum.nan ≠ JsNum.finite 0 :=
  ⟨rfl, by decide⟩

/-- Claim C4 as amended: for a bid with at least one requirement the
rendered ratio is satisfiedCount over totalCount as a percentage
rounded to the nearest integer (within one half of the exact value);
for a bid with an empty requirements sequence the division is
unguarded and the value is NaN. -/
theorem satisfaction_percent_amended (bid : BidData) :
    (bid.requirements = [] → satisfactionPercent bid = JsNum.nan) ∧
    (bid.requirements ≠ [] →
      satisfactionPercent bid =
        JsNum.finite ((⌊(satisfiedCount bid : Rat) / (totalCount bid : Rat) * 100 + 1 / 2⌋ : Int) : Rat) ∧
      |((⌊(satisfiedCount bid : Rat) / (totalCount bid : Rat) * 100 + 1 / 2⌋ : Int) : Rat)
          - (satisfiedCount bid : Rat) / (totalCount bid : Rat) * 100| ≤ 1 / 2) := by
  constructor
  · intro h
    have h0 : satisfiedCount bid = 0 := by simp [satisfiedCount, h]
    have h1 : totalCount bid = 0 := by simp [totalCount, h]
    simp [satisfactionPercent, jsDiv, h0, h1, jsMul100, jsRound]
  · intro h
    have ht : totalCount bid ≠ 0 := by
      simpa [totalCount, List.length_eq_zero] using h
    constructor
    · simp [satisfactionPercent, jsDiv, ht, jsMul100, jsRound]
    · have hl : ((⌊(satisfiedCount bid : Rat) / (totalCount bid : Rat) * 100 + 1 / 2⌋ : Int) : Rat)
          ≤ (satisfiedCount bid : Rat) / (totalCount bid : Rat) * 100 + 1 / 2 :=
        Int.floor_le _
      have hgt : (satisfiedCount bid : Rat) / (totalCount bid : Rat) * 100 + 1 / 2 - 1
          < ((⌊(satisfiedCount bid : Rat) / (totalCount bid : Rat) * 100 + 1 / 2⌋ : Int) : Rat) :=
        Int.sub_one_lt_floor _
      rw [abs_le]
      constructor <;> linarith

/-- Witness for the amended C4 at the concrete bid demoBid. -/
theorem satisfaction_percent_amended_witness :
    satisfactionPercent demoBid =
      JsNum.finite ((⌊(satisfiedCount demoBid : Rat) / (totalCount demoBid : Rat) * 100 + 1 / 2⌋ : Int) : Rat) ∧
    |((⌊(satisfiedCount demoBid : Rat) / (totalCount demoBid : Rat) * 100 + 1 / 2⌋ : Int) : Rat)
        - (satisfiedCount demoBid : Rat) / (totalCount demoBid : Rat) * 100| ≤ 1 / 2 :=
  (satisfaction_percent_amended demoBid).2 (by decide)

/-- Claim C3: the Assessment output schema is exactly the shape the
spec asserts; on a valid staged request the stage returns the model
response with status 200 precisely when it conforms, answers 500 when
it does not, and a successful invocation therefore only ever returns
a conforming Bid record. -/
theorem assessment_schema_conformance (v : JsValue) (f : UploadedFile)
    (rjson : String) (reqs : List Requirement) (url : String)
    (d : Except Unit Unit) (now : Nat)
    (hf : f.type = "application/pdf") (hs : f.size ≤ maxSize) (hu : url ≠ "") :
    bidSchemaCheck v = claimedBidShape v ∧
    (bidSchemaCheck v = true →
      (processBidPOST ⟨some f, some rjson⟩ (.ok reqs) (.ok url) (.ok v) d now).1 = jsonOk v) ∧
    (bidSchemaCheck v = false →
      (processBidPOST ⟨some f, some rjson⟩ (.ok reqs) (.ok url) (.ok v) d now).1.status = 500) ∧
    ((processBidPOST ⟨some f, some rjson⟩ (.ok reqs) (.ok url) (.ok v) d now).1.status = 200 →
      claimedBidShape v = true) := by
  have hred := processBid_staged f rjson reqs url (.ok v) d now hf hs hu
  refine ⟨rfl, ?_, ?_, ?_⟩
  · intro hv
    rw [hred]
    simp [generateStructured, hv]
  · intro hv
    rw [hred]
    simp [generateStructured, hv, errorResponse]
  · intro h200
    cases hv : bidSchemaCheck v with
    | true => exact hv
    | false =>
        rw [hred] at h200
        simp [generateStructured, hv, errorResponse] at h200

/-- Witness for C3 at the conforming response demoBidJson. -/
theorem assessment_schema_conformance_witness :
    bidSchemaCheck demoBidJson = claimedBidShape demoBidJson ∧
    (bidSchemaCheck demoBidJson = true →
      (processBidPOST ⟨some demoPdf, some "reqs"⟩ (.ok [demoReq1]) (.ok "https://blob.example/x")
        (.ok demoBidJson) (.ok ()) 0).1 = jsonOk demoBidJson) ∧
    (bidSchemaCheck demoBidJson = false →
      (processBidPOST ⟨some demoPdf, some "reqs"⟩ (.ok [demoReq1]) (.ok "https://blob.example/x")
        (.ok demoBidJson) (.ok ()) 0).1.status = 500) ∧
    ((processBidPOST ⟨some demoPdf, some "reqs"⟩ (.ok [demoReq1]) (.ok "https://blob.example/x")
        (.ok demoBidJson) (.ok ()) 0).1.status = 200 →
      claimedBidShape demoBidJson = true) :=
  assessment_schema_conformance demoBidJson demoPdf "reqs" [demoReq1]
    "https://blob.example/x" (.ok ()) 0 rfl (by decide) (by decide)

/-- Claim C5: a payload that is not application/pdf, or one that
exceeds 10 MiB, makes both the Extraction route and the Assessment
route answer a 400 validation failure with an empty blob-service
trace: no staging call is performed. -/
theorem upload_validation_rejects (f : UploadedFile) (rjson : Option String)
    (pr : Except Unit (List Requirement)) (pu : Except Unit String)
    (mo : Except Unit JsValue) (d : Except Unit Unit) (now : Nat)
    (hbad : f.type ≠ "application/pdf" ∨ maxSize < f.size) :
    ((processRfpPOST ⟨some f⟩ pu mo d now).1.status = 400 ∧
     (processRfpPOST ⟨some f⟩ pu mo d now).2 = []) ∧
    ((processBidPOST ⟨some f, rjson⟩ pr pu mo d now).1.status = 400 ∧
     (processBidPOST ⟨some f, rjson⟩ pr pu mo d now).2 = []) := by
  by_cases htype : f.type = "application/pdf"
  · have hsize : maxSize < f.size := by
      cases hbad with
      | inl hh => exact absurd htype hh
      | inr hh => exact hh
    have h1 : ¬ (f.type ≠ "application/pdf") := fun hc => hc htype
    refine ⟨?_, ?_⟩
    · constructor <;>
        simp [processRfpPOST, if_neg h1, if_pos hsize, applyFinally, errorResponse]
    · cases rjson with
      | none =>
          constructor <;> simp [processBidPOST, applyFinally, errorResponse]
      | some rj =>
          cases pr with
          | error e =>
              constructor <;> simp [processBidPOST, applyFinally, errorResponse]
          | ok reqs =>
              constructor <;>
                simp [processBidPOST, if_neg h1, if_pos hsize, applyFinally, errorResponse]
  · refine ⟨?_, ?_⟩
    · constructor <;>
        simp [processRfpPOST, if_pos htype, applyFinally, errorResponse]
    · cases rjson with
      | none =>
          constructor <;> simp [processBidPOST, applyFinally, errorResponse]
      | some rj =>
          cases pr with
          | error e =>
              constructor <;> simp [processBidPOST, applyFinally, errorResponse]
          | ok reqs =>
              constructor <;>
                simp [processBidPOST, if_pos htype, applyFinally, errorResponse]

/-- Witness for C5 at the non-PDF upload demoTxt. -/
theorem upload_validation_rejects_witness :
    ((processRfpPOST ⟨some demoTxt⟩ (.error ()) (.error ()) (.error ()) 0).1.status = 400 ∧
     (processRfpPOST ⟨some demoTxt⟩ (.error ()) (.error ()) (.error ()) 0).2 = []) ∧
    ((processBidPOST ⟨some demoTxt, none⟩ (.error ()) (.error ()) (.error ()) (.error ()) 0).1.status = 400 ∧
     (processBidPOST ⟨some demoTxt, none⟩ (.error ()) (.error ()) (.error ()) (.error ()) 0).2 = []) :=
  upload_validation_rejects demoTxt none (.error ()) (.error ()) (.error ())
    (.error ()) 0 (Or.inl (by decide))

/-- Claim C6: once staging succeeded, both file routes delete the
staged blob on the success path and on the failure path of the model
call, a delete failure never changes the response (it is only
logged), and a successful extraction or assessment returns its output
unchanged even when cleanup fails. -/
theorem staged_blob_cleanup (f : UploadedFile) (rjson : String)
    (reqs : List Requirement) (url : String) (mo : Except Unit JsValue)
    (d : Except Unit Unit) (now : Nat)
    (hf : f.type = "application/pdf") (hs : f.size ≤ maxSize) (hu : url ≠ "") :
    BlobEvent.delCall url ∈ (processRfpPOST ⟨some f⟩ (.ok url) mo d now).2 ∧
    (processRfpPOST ⟨some f⟩ (.ok url) mo d now).1
      = (processRfpPOST ⟨some f⟩ (.ok url) mo (.ok ()) now).1 ∧
    (∀ w, mo = .ok w → rfpSchemaCheck w = true →
      (processRfpPOST ⟨some f⟩ (.ok url) mo d now).1 = jsonOk w) ∧
    BlobEvent.delCall url ∈ (processBidPOST ⟨some f, some rjson⟩ (.ok reqs) (.ok url) mo d now).2 ∧
    (processBidPOST ⟨some f, some rjson⟩ (.ok reqs) (.ok url) mo d now).1
      = (processBidPOST ⟨some f, some rjson⟩ (.ok reqs) (.ok url) mo (.ok ()) now).1 ∧
    (∀ w, mo = .ok w → bidSchemaCheck w = true →
      (processBidPOST ⟨some f, some rjson⟩ (.ok reqs) (.ok url) mo d now).1 = jsonOk w) := by
  have hr1 := processRfp_staged f url mo d now hf hs hu
  have hr2 := processRfp_staged f url mo (.ok ()) now hf hs hu
  have hb1 := processBid_staged f rjson reqs url mo d now hf hs hu
  have hb2 := processBid_staged f rjson reqs url mo (.ok ()) now hf hs hu
  refine ⟨?_, ?_, ?_, ?_, ?_, ?_⟩
  · rw [hr1]; simp
  · rw [hr1, hr2]
  · intro w hw hcw
    subst hw
    rw [hr1]
    simp [generateStructured, hcw]
  · rw [hb1]; simp
  · rw [hb1, hb2]
  · intro w hw hcw
    subst hw
    rw [hb1]
    simp [generateStructured, hcw]

/-- Witness for C6 at a valid PDF, a staged URL, a conforming model
response and a failing delete. -/
theorem staged_blob_cleanup_witness :
    BlobEvent.delCall "https://blob.example/y"
      ∈ (processRfpPOST ⟨some demoPdf⟩ (.ok "https://blob.example/y") (.ok demoBidJson) (.error ()) 0).2 ∧
    (processRfpPOST ⟨some demoPdf⟩ (.ok "https://blob.example/y") (.ok demoBidJson) (.error ()) 0).1
      = (processRfpPOST ⟨some demoPdf⟩ (.ok "https://blob.example/y") (.ok demoBidJson) (.ok ()) 0).1 ∧
    (∀ w, (Except.ok demoBidJson : Except Unit JsValue) = .ok w → rfpSchemaCheck w = true →
      (processRfpPOST ⟨some demoPdf⟩ (.ok "https://blob.example/y") (.ok demoBidJson) (.error ()) 0).1 = jsonOk w) ∧
    BlobEvent.delCall "https://blob.example/y"
      ∈ (processBidPOST ⟨some demoPdf, some "reqs"⟩ (.ok [demoReq1]) (.ok "https://blob.example/y") (.ok demoBidJson) (.error ()) 0).2 ∧
    (processBidPOST ⟨some demoPdf, some "reqs"⟩ (.ok [demoReq1]) (.ok "https://blob.example/y") (.ok demoBidJson) (.error ()) 0).1
      = (processBidPOST ⟨some demoPdf, some "reqs"⟩ (.ok [demoReq1]) (.ok "https://blob.example/y") (.ok demoBidJson) (.ok ()) 0).1 ∧
    (∀ w, (Except.ok demoBidJson : Except Unit JsValue) = .ok w → bidSchemaCheck w = true →
      (processBidPOST ⟨some demoPdf, some "reqs"⟩ (.ok [demoReq1]) (.ok "https://blob.example/y") (.ok demoBidJson) (.error ()) 0).1 = jsonOk w) :=
  staged_blob_cleanup demoPdf "reqs" [demoReq1] "https://blob.example/y"
    (.ok demoBidJson) (.error ()) 0 rfl (by decide) (by decide)

/-- Claim C8: both the Assessment prompt and the Comparative Analysis
prompt render the requirement sequence as an enumerated block joined
by newlines, with exactly one entry per requirement, a 1-based index,
the bracketed category, and the original order preserved. -/
theorem requirements_enumeration (reqs : List Requirement) (i : Nat)
    (h : i < reqs.length) :
    (requirementLines reqs).length = reqs.length ∧
    (requirementLines reqs).get? i
      = some (toString (i + 1) ++ ". [" ++ (reqs.get ⟨i, h⟩).category ++ "] "
          ++ (reqs.get ⟨i, h⟩).text) ∧
    requirementsText reqs = String.intercalate "\n" (requirementLines reqs) ∧
    rfpRequirementsText reqs = requirementsText reqs := by
  refine ⟨by simp [requirementLines], ?_, rfl, rfl⟩
  rw [requirementLines, List.get?_eq_getElem?, List.getElem?_map, List.getElem?_enum,
    List.getElem?_eq_getElem h]
  rfl

/-- Witness for C8 at the two-element sample requirement list. -/
theorem requirements_enumeration_witness :
    (requirementLines [demoReq1, demoReq2]).length = ([demoReq1, demoReq2] : List Requirement).length ∧
    (requirementLines [demoReq1, demoReq2]).get? 1
      = some (toString (1 + 1) ++ ". ["
          ++ (([demoReq1, demoReq2] : List Requirement).get ⟨1, by decide⟩).category ++ "] "
          ++ (([demoReq1, demoReq2] : List Requirement).get ⟨1, by decide⟩).text) ∧
    requirementsText [demoReq1, demoReq2]
      = String.intercalate "\n" (requirementLines [demoReq1, demoReq2]) ∧
    rfpRequirementsText [demoReq1, demoReq2] = requirementsText [demoReq1, demoReq2] :=
  requirements_enumeration [demoReq1, demoReq2] 1 (by decide)

/-- Claim C10: the startup restore is total over arbitrary durable
store content: an absent key, an empty stored string and a parse
failure each leave the orchestrator with the empty Project state (the
failure is caught and logged, nothing is thrown to the caller), and
when the parse yields a value, a field absent from it is never
restored. -/
theorem startup_restore_robust (stored : Option String)
    (parsed : Except Unit JsValue) :
    (stored = none → loadStoredData stored parsed = ⟨none, none, none⟩) ∧
    (stored = some "" → loadStoredData stored parsed = ⟨none, none, none⟩) ∧
    (∀ e, parsed = .error e → loadStoredData stored parsed = ⟨none, none, none⟩) ∧
    (∀ data, parsed = .ok data →
      (hasKey data "rfpData" = false → (loadStoredData stored parsed).rfpData = none) ∧
      (hasKey data "bids" = false → (loadStoredData stored parsed).bids = none) ∧
      (hasKey data "analysisData" = false →
        (loadStoredData stored parsed).analysisData = none)) := by
  cases stored with
  | none =>
      refine ⟨fun _ => rfl, ?_, ?_, ?_⟩
      · intro hc
        cases hc
      · intro e he
        rfl
      · intro data hd
        exact ⟨fun _ => rfl, fun _ => rfl, fun _ => rfl⟩
  | some s =>
      by_cases hse : s = ""
      · subst hse
        refine ⟨?_, ?_, ?_, ?_⟩
        · intro hc
          cases hc
        · intro _
          simp [loadStoredData]
        · intro e he
          simp [loadStoredData]
        · intro data hd
          refine ⟨fun _ => ?_, fun _ => ?_, fun _ => ?_⟩ <;> simp [loadStoredData]
      · refine ⟨?_, ?_, ?_, ?_⟩
        · intro hc
          cases hc
        · intro hc
          injection hc with hc2
          exact absurd hc2 hse
        · intro e he
          subst he
          simp [loadStoredData, hse]
        · intro data hd
          subst hd
          cases data with
          | obj fields =>
              refine ⟨fun hk => ?_, fun hk => ?_, fun hk => ?_⟩
              · have hu := jsGetObj_of_hasKey_false fields "rfpData" hk
                simp [loadStoredData, hse, jsGet, hu, truthy]
              · have hu := jsGetObj_of_hasKey_false fields "bids" hk
                simp [loadStoredData, hse, jsGet, hu, truthy]
              · have hu := jsGetObj_of_hasKey_false fields "analysisData" hk
                simp [loadStoredData, hse, jsGet, hu, truthy]
          | null =>
              refine ⟨fun _ => ?_, fun _ => ?_, fun _ => ?_⟩ <;>
                simp [loadStoredData, hse, jsGet]
          | undefined =>
              refine ⟨fun _ => ?_, fun _ => ?_, fun _ => ?_⟩ <;>
                simp [loadStoredData, hse, jsGet]
          | bool b =>
              refine ⟨fun _ => ?_, fun _ => ?_, fun _ => ?_⟩ <;>
                simp [loadStoredData, hse, jsGet, truthy]
          | num q =>
              refine ⟨fun _ => ?_, fun _ => ?_, fun _ => ?_⟩ <;>
                simp [loadStoredData, hse, jsGet, truthy]
          | str t =>
              refine ⟨fun _ => ?_, fun _ => ?_, fun _ => ?_⟩ <;>
                simp [loadStoredData, hse, jsGet, truthy]
          | arr elems =>
              refine ⟨fun _ => ?_, fun _ => ?_, fun _ => ?_⟩ <;>
                simp [loadStoredData, hse, jsGet, truthy]

/-- Witness for C10 at a stored value carrying only the rfpData
field: the bids and analysisData slots stay empty. -/
theorem startup_restore_robust_witness :
    (loadStoredData (some "stored") (.ok c10StoredValue)).bids = none ∧
    (loadStoredData (some "stored") (.ok c10StoredValue)).analysisData = none := by
  have h := (startup_restore_robust (some "stored") (.ok c10StoredValue)).2.2.2
    c10StoredValue rfl
  exact ⟨h.2.1 (by decide), h.2.2 (by decide)⟩
